import Mathlib

/-!
Verification of the paperless-asn-label-generator placement core
(`src/paperless_asn_label_generator/app.py`).

Python floats are modelled as exact rationals (`ℚ`), Python ints as `ℤ`
(converted to `ℕ` after the positivity validations), and the fallible
`generate_pdf` as an `Except String` computation.  The drawing side effects
of `generate_pdf` are modelled by the list of `Placement` records the
nested loops produce: one record per label, in emission order, carrying the
page index, the within-page index, the row/column the code computes from
it, the rectangle origin `(x, y)` in points and the label text.  The
rendering-only arguments (`kind`, `draw_border`) change pixels inside the
label rectangle but none of these observables, so they are not modelled.
-/

namespace ASN

/-- reportlab's `mm` unit: 72 / 25.4 points per millimetre. -/
def mm : ℚ := 72 / 25.4

/-- reportlab's `cm` unit. -/
def cm : ℚ := 10 * mm

/-- reportlab's `A4` page size in points: 210mm × 297mm. -/
def A4 : ℚ × ℚ := (210 * mm, 297 * mm)

/-- The `SheetLayout` dataclass (app.py lines 44–66): immutable sheet geometry
in points. -/
structure SheetLayout where
  name : String
  cols : ℕ
  rows : ℕ
  label_w : ℚ
  label_h : ℚ
  gap_x : ℚ
  gap_y : ℚ
  margin_left : ℚ
  margin_top : ℚ

/-- The `SheetLayout.labels_per_page` property: `cols * rows`. -/
def SheetLayout.labels_per_page (l : SheetLayout) : ℕ := l.cols * l.rows

/-- The `SheetLayout.pitch_x` property: `label_w + gap_x`. -/
def SheetLayout.pitch_x (l : SheetLayout) : ℚ := l.label_w + l.gap_x

/-- The `SheetLayout.pitch_y` property: `label_h + gap_y`. -/
def SheetLayout.pitch_y (l : SheetLayout) : ℚ := l.label_h + l.gap_y

/-- The `AVERY_L4731` layout constant (app.py lines 71–81). -/
def AVERY_L4731 : SheetLayout :=
  { name := "Avery Zweckform L4731 / L4731REV (7x27, 25.4mm x 10mm)"
    cols := 7
    rows := 27
    label_w := 25.4 * mm
    label_h := 10.0 * mm
    gap_x := 0.25 * cm
    gap_y := 0.0 * cm
    margin_left := 0.85 * cm
    margin_top := 1.35 * cm }

/-- The numeric part of `f"{pfx}{number:0{leading_zeros}d}"` for a
non-negative `number`: the decimal representation left-padded with `'0'`
to at least `w` characters. -/
def padNum (number w : ℕ) : String :=
  let s := Nat.repr number
  String.mk (List.replicate (w - s.length) '0') ++ s

/-- Model of `make_asn_text` (app.py lines 84–85): the label text
`f"{pfx}{number:0{leading_zeros}d}"`.  Within the program the number is
always positive (validated in `generate_pdf` and `_current_text`), so the
model takes it as a natural number. -/
def make_asn_text ( pfx : String) (number : ℕ) (leading_zeros : ℕ) : String :=
  pfx ++ padNum number leading_zeros

/-- One placement emitted by the nested loops of `generate_pdf`:
the page index, the within-page index `i`, the row/column derived from it,
the rectangle origin and the label text. -/
structure Placement where
  page : ℕ
  idx : ℕ
  row : ℕ
  col : ℕ
  x : ℚ
  y : ℚ
  text : String

/-- The body of the inner loop of `generate_pdf` (app.py lines 186–196):
`r = i // cols`, `col = i % cols`,
`x = margin_left + col * pitch_x + off_x`,
`y = page_h - margin_top - label_h - r * pitch_y + off_y`,
`text = make_asn_text(prefix, current, leading_zeros)` where the running
number `current` equals `number`. -/
def placeLabel ( pfx : String) (leading_zeros : ℕ) (layout : SheetLayout)
    (pitch_x pitch_y off_x off_y : ℚ) (page i number : ℕ) : Placement :=
  let r := i / layout.cols
  let col := i % layout.cols
  { page := page
    idx := i
    row := r
    col := col
    x := layout.margin_left + (col : ℚ) * pitch_x + off_x
    y := A4.2 - layout.margin_top - layout.label_h - (r : ℚ) * pitch_y + off_y
    text := make_asn_text pfx number leading_zeros }

/-- One page of the inner loop: `for i in range(n_this_page)` with the
running number starting at `current`; the `current += 1` per iteration is
rendered as label `i` carrying number `current + i`. -/
def pageRun ( pfx : String) (leading_zeros : ℕ) (layout : SheetLayout)
    (pitch_x pitch_y off_x off_y : ℚ) (page current n : ℕ) : List Placement :=
  (List.range n).map fun i =>
    placeLabel pfx leading_zeros layout pitch_x pitch_y off_x off_y page i (current + i)

/-- The outer loop `for _ in range(pages)` of `generate_pdf`
(app.py lines 183–199), with explicit state `(page, current, remaining)`:
each iteration places `n = min(remaining, labels_per_page)` labels,
advances `current` by `n` and decreases `remaining` by `n`.  Returns the
placements in emission order together with the final value of `current`. -/
def runPages ( pfx : String) (leading_zeros : ℕ) (layout : SheetLayout)
    (pitch_x pitch_y off_x off_y : ℚ) :
    ℕ → ℕ → ℕ → ℕ → List Placement × ℕ
  | 0, _, current, _ => ([], current)
  | fuel + 1, page, current, remaining =>
    let n := min remaining layout.labels_per_page
    let rest := runPages pfx leading_zeros layout pitch_x pitch_y off_x off_y
      fuel (page + 1) (current + n) (remaining - n)
    (pageRun pfx leading_zeros layout pitch_x pitch_y off_x off_y page current n ++ rest.1,
      rest.2)

/-- Model of `generate_pdf` (app.py lines 141–202).  Validations happen in source
order before any document output; `math.ceil(count / labels_per_page)`
raises `ZeroDivisionError` on a degenerate layout, modelled by the last
error branch (it too occurs before the canvas is opened).  The result is
the list of emitted placements together with the returned pair
`(pages, next_number)`. -/
def generate_pdf (output_path : String) (start_number : ℤ) (count : ℤ)
    ( pfx : String) (leading_zeros : ℤ) (layout : SheetLayout)
    (offset_x_mm offset_y_mm pitch_dx_mm pitch_dy_mm : ℚ) :
    Except String (List Placement × ℕ × ℕ) :=
  if count ≤ 0 then .error "count must be > 0"
  else if start_number ≤ 0 then .error "start_number must be > 0"
  else if leading_zeros < 0 then .error "leading_zeros must be >= 0"
  else if pfx = "" then .error "prefix must not be empty"
  else if layout.labels_per_page = 0 then .error "integer division or modulo by zero"
  else
    let labels_per_page := layout.labels_per_page
    let pages := (count.toNat + labels_per_page - 1) / labels_per_page
    let pitch_x := layout.pitch_x + pitch_dx_mm * mm
    let pitch_y := layout.pitch_y + pitch_dy_mm * mm
    let off_x := offset_x_mm * mm
    let off_y := offset_y_mm * mm
    let res := runPages pfx leading_zeros.toNat layout pitch_x pitch_y off_x off_y
      pages 0 start_number.toNat count.toNat
    .ok (res.1, pages, res.2)

/-! ### Closed form of the placement loop -/

/-- Ceiling-division bound: `c ≤ ceil(c / l) * l` for `l > 0`,
with `ceil(c / l)` rendered as `(c + l - 1) / l`. -/
lemma le_ceil_mul (c l : ℕ) (hl : 0 < l) : c ≤ (c + l - 1) / l * l := by
  have h1 := Nat.div_add_mod (c + l - 1) l
  have h2 : (c + l - 1) % l < l := Nat.mod_lt _ hl
  have h3 : (c + l - 1) / l * l = l * ((c + l - 1) / l) := Nat.mul_comm _ _
  omega

/-- Closed form of `runPages`: when the fuel covers the remaining labels,
the loop emits one placement per `k < remaining`, the `k`-th landing on
page `page + k / labels_per_page` at within-page index
`k % labels_per_page` with running number `current + k`, and the final
running number is `current + remaining`. -/
lemma runPages_eq ( pfx : String) (leading_zeros : ℕ) (layout : SheetLayout)
    (pitch_x pitch_y off_x off_y : ℚ) (fuel page current remaining : ℕ)
    (h : remaining ≤ fuel * layout.labels_per_page) :
    runPages pfx leading_zeros layout pitch_x pitch_y off_x off_y
        fuel page current remaining =
      ((List.range remaining).map fun k =>
        placeLabel pfx leading_zeros layout pitch_x pitch_y off_x off_y
          (page + k / layout.labels_per_page) (k % layout.labels_per_page)
          (current + k),
       current + remaining) := by
  induction fuel generalizing page current remaining with
  | zero =>
    have hr : remaining = 0 := by simpa using h
    subst hr
    simp [runPages]
  | succ fuel ih =>
    have hsucc : (fuel + 1) * layout.labels_per_page
        = fuel * layout.labels_per_page + layout.labels_per_page :=
      Nat.succ_mul _ _
    set L := layout.labels_per_page with hL
    have hnr : min remaining L ≤ remaining := Nat.min_le_left _ _
    have hnl : min remaining L ≤ L := Nat.min_le_right _ _
    have hrec : remaining - min remaining L ≤ fuel * L := by
      rcases Nat.le_total remaining L with h1 | h1
      · have : min remaining L = remaining := Nat.min_eq_left h1
        omega
      · have : min remaining L = L := Nat.min_eq_right h1
        omega
    rw [runPages, ih (page + 1) (current + min remaining L)
      (remaining - min remaining L) hrec]
    refine Prod.ext ?_ (by simp; omega)
    simp only
    have hsplit : List.range remaining
        = List.range (min remaining L)
          ++ (List.range (remaining - min remaining L)).map
              (fun x => min remaining L + x) := by
      rw [← List.range_add]
      congr 1
      omega
    rw [hsplit, List.map_append, List.map_map]
    congr 1
    · -- first page: within-page index `k` with `k < min remaining L ≤ L`
      unfold pageRun
      apply List.map_congr_left
      intro k hk
      rw [List.mem_range] at hk
      have hkL : k < L := Nat.lt_of_lt_of_le hk hnl
      rw [Nat.div_eq_of_lt hkL, Nat.mod_eq_of_lt hkL, Nat.add_zero]
    · -- later pages: shift indices by one full page
      apply List.map_congr_left
      intro k hk
      rw [List.mem_range] at hk
      have hpos : 0 < L := by
        rcases Nat.eq_zero_or_pos L with h0 | h0
        · rw [h0, Nat.mul_zero] at hrec
          omega
        · exact h0
      have hmin : min remaining L = L := Nat.min_eq_right (by omega)
      rw [hmin] at hk ⊢
      simp only [Function.comp]
      have hdiv : (L + k) / L = k / L + 1 := by
        rw [Nat.add_comm, Nat.add_div_right _ hpos]
      have hmod : (L + k) % L = k % L := by
        rw [Nat.add_comm, Nat.add_mod_right]
      rw [hdiv, hmod,
        show page + 1 + k / L = page + (k / L + 1) by omega,
        show current + L + k = current + (L + k) by omega]

/-- Abbreviation for the placement `generate_pdf` emits for the `k`-th
label overall (0-based): page `k / labels_per_page`, within-page index
`k % labels_per_page`, running number `start + k`, with the effective
pitches and offsets computed from the calibration deltas. -/
def nthPlacement ( pfx : String) (leading_zeros : ℕ) (layout : SheetLayout)
    (offset_x_mm offset_y_mm pitch_dx_mm pitch_dy_mm : ℚ)
    (start k : ℕ) : Placement :=
  placeLabel pfx leading_zeros layout
    (layout.pitch_x + pitch_dx_mm * mm) (layout.pitch_y + pitch_dy_mm * mm)
    (offset_x_mm * mm) (offset_y_mm * mm)
    (k / layout.labels_per_page) (k % layout.labels_per_page) (start + k)

/-- On valid inputs `generate_pdf` succeeds and its output is the closed
form: `count` placements, the `k`-th being `nthPlacement` at `k`, the page
count `(count + labels_per_page - 1) / labels_per_page`, and the final
running number `start + count`. -/
lemma generate_pdf_ok (output_path : String) (start_number count : ℤ)
    ( pfx : String) (leading_zeros : ℤ) (layout : SheetLayout)
    (offset_x_mm offset_y_mm pitch_dx_mm pitch_dy_mm : ℚ)
    (hc : 0 < count) (hs : 0 < start_number) (hl : 0 ≤ leading_zeros)
    (hp : pfx ≠ "") (hlpp : 0 < layout.labels_per_page) :
    generate_pdf output_path start_number count pfx leading_zeros layout
        offset_x_mm offset_y_mm pitch_dx_mm pitch_dy_mm =
      .ok ((List.range count.toNat).map
            (nthPlacement pfx leading_zeros.toNat layout
              offset_x_mm offset_y_mm pitch_dx_mm pitch_dy_mm
              start_number.toNat),
           (count.toNat + layout.labels_per_page - 1) / layout.labels_per_page,
           start_number.toNat + count.toNat) := by
  rw [generate_pdf, if_neg (by omega), if_neg (by omega), if_neg (by omega),
    if_neg hp, if_neg (by omega)]
  simp only
  rw [runPages_eq pfx leading_zeros.toNat layout _ _ _ _ _ 0
    start_number.toNat count.toNat (le_ceil_mul _ _ hlpp)]
  simp [nthPlacement]

/-- Counting the `k < n` with `k / L = p`: the window
`[p*L, (p+1)*L)` clipped to `[0, n)`. -/
lemma length_filter_range_div (n L p : ℕ) (hL : 0 < L) :
    ((List.range n).filter (fun k => k / L == p)).length
      = min n ((p + 1) * L) - min n (p * L) := by
  induction n with
  | zero => simp
  | succ n ih =>
    rw [List.range_succ, List.filter_append, List.length_append, ih]
    have hsucc : (p + 1) * L = p * L + L := Nat.succ_mul _ _
    by_cases h : n / L = p
    · have hwin : p * L ≤ n ∧ n < (p + 1) * L := by
        subst h
        have hdm := Nat.div_add_mod n L
        have hml : n % L < L := Nat.mod_lt _ hL
        have e1 : n / L * L = L * (n / L) := Nat.mul_comm _ _
        have e2 : (n / L + 1) * L = L * (n / L) + L := by
          rw [Nat.succ_mul, Nat.mul_comm]
        omega
      have : ([n].filter (fun k => k / L == p)).length = 1 := by
        simp [h]
      omega
    · have hwin : ¬(p * L ≤ n ∧ n < (p + 1) * L) := by
        intro hw
        exact h (Nat.div_eq_of_lt_le hw.1 hw.2)
      have : ([n].filter (fun k => k / L == p)).length = 0 := by
        simp [h]
      omega

/-! ### Claim theorems -/

/-- Claim C1. For every valid input (`start_number > 0`, `count > 0`,
`leading_zeros ≥ 0`, non-empty prefix, a layout with at least one label
per page), `generate_pdf` succeeds and emits exactly `count` label texts,
in order, the `j`-th being `make_asn_text` of the prefix and
`start_number + j` (the prefix followed by the decimal representation of
`start_number + j` zero-padded to at least `leading_zeros` digits), the
numbering running on across page boundaries with no reset or reuse; and
the returned next number equals `start_number + count`. -/
theorem generate_pdf_texts_and_next (output_path : String)
    (start_number count : ℤ) ( pfx : String) (leading_zeros : ℤ)
    (layout : SheetLayout) (offset_x_mm offset_y_mm pitch_dx_mm pitch_dy_mm : ℚ)
    (hs : 0 < start_number) (hc : 0 < count) (hl : 0 ≤ leading_zeros)
    (hp : pfx ≠ "") (hlpp : 0 < layout.labels_per_page) :
    ∃ pls pages next,
      generate_pdf output_path start_number count pfx leading_zeros layout
          offset_x_mm offset_y_mm pitch_dx_mm pitch_dy_mm =
        .ok (pls, pages, next) ∧
      pls.map Placement.text
        = (List.range count.toNat).map
            (fun j => make_asn_text pfx (start_number.toNat + j) leading_zeros.toNat) ∧
      (next : ℤ) = start_number + count := by
  refine ⟨_, _, _,
    generate_pdf_ok output_path start_number count pfx leading_zeros layout
      offset_x_mm offset_y_mm pitch_dx_mm pitch_dy_mm hc hs hl hp hlpp, ?_, ?_⟩
  · rw [List.map_map]
    apply List.map_congr_left
    intro j _
    rfl
  · push_cast [Int.toNat_of_nonneg hs.le, Int.toNat_of_nonneg hc.le]
    ring

/-- Witness for C1 at `start_number = 1`, `count = 3`, prefix `"ASN"`,
`leading_zeros = 7`, the Avery L4731 layout and zero calibration. -/
theorem generate_pdf_texts_and_next_witness :
    ∃ pls pages next,
      generate_pdf "out.pdf" 1 3 "ASN" 7 AVERY_L4731 0 0 0 0 =
        .ok (pls, pages, next) ∧
      pls.map Placement.text
        = (List.range (3 : ℤ).toNat).map
            (fun j => make_asn_text "ASN" ((1 : ℤ).toNat + j) (7 : ℤ).toNat) ∧
      (next : ℤ) = 1 + 3 :=
  generate_pdf_texts_and_next "out.pdf" 1 3 "ASN" 7 AVERY_L4731 0 0 0 0
    (by decide) (by decide) (by decide) (by decide) (by decide)

/-- Claim C2. On valid inputs the page count `generate_pdf` returns — which
is also the number of outer-loop iterations producing pages, every
placement landing on a page index below it — equals
`⌈count / (columns * rows)⌉`; in particular with the 7×27 Avery layout,
`count = 189` yields 1 page and `count = 190` yields 2 pages. -/
theorem generate_pdf_page_count (output_path : String)
    (start_number count : ℤ) ( pfx : String) (leading_zeros : ℤ)
    (layout : SheetLayout) (offset_x_mm offset_y_mm pitch_dx_mm pitch_dy_mm : ℚ)
    (hs : 0 < start_number) (hc : 0 < count) (hl : 0 ≤ leading_zeros)
    (hp : pfx ≠ "") (hlpp : 0 < layout.labels_per_page) :
    (∃ pls pages next,
      generate_pdf output_path start_number count pfx leading_zeros layout
          offset_x_mm offset_y_mm pitch_dx_mm pitch_dy_mm =
        .ok (pls, pages, next) ∧
      (pages : ℤ) = ⌈(count : ℚ) / ((layout.cols : ℚ) * (layout.rows : ℚ))⌉ ∧
      ∀ pl ∈ pls, pl.page < pages) ∧
    (∃ res, generate_pdf "a.pdf" 1 189 "ASN" 7 AVERY_L4731 0 0 0 0 = .ok res ∧
      res.2.1 = 1) ∧
    (∃ res, generate_pdf "a.pdf" 1 190 "ASN" 7 AVERY_L4731 0 0 0 0 = .ok res ∧
      res.2.1 = 2) := by
  refine ⟨⟨_, _, _,
    generate_pdf_ok output_path start_number count pfx leading_zeros layout
      offset_x_mm offset_y_mm pitch_dx_mm pitch_dy_mm hc hs hl hp hlpp,
    ?_, ?_⟩, ?_, ?_⟩
  · -- the returned page count is the ceiling of count / labels_per_page
    set C := count.toNat with hC
    set L := layout.labels_per_page with hLdef
    have hCpos : 0 < C := by omega
    have h1 : C ≤ (C + L - 1) / L * L := le_ceil_mul C L hlpp
    have h2 : (C + L - 1) / L * L ≤ C + L - 1 := Nat.div_mul_le_self _ _
    have hcount : (count : ℚ) = (C : ℚ) := by
      have h := Int.toNat_of_nonneg hc.le
      exact_mod_cast h.symm
    have hcr : (layout.cols : ℚ) * (layout.rows : ℚ) = (L : ℚ) := by
      rw [hLdef, SheetLayout.labels_per_page]
      push_cast
      ring
    rw [hcount, hcr, eq_comm, Int.ceil_eq_iff]
    have hLQ : (0 : ℚ) < (L : ℚ) := by exact_mod_cast hlpp
    constructor
    · rw [lt_div_iff hLQ, Int.cast_natCast, sub_mul, one_mul]
      have hfin : (C + L - 1) / L * L < C + L := by omega
      have hcast : (((C + L - 1) / L : ℕ) : ℚ) * (L : ℚ) < (C : ℚ) + (L : ℚ) := by
        exact_mod_cast hfin
      linarith
    · rw [div_le_iff hLQ]
      exact_mod_cast h1
  · -- every placement lands on a page index below the returned count
    intro pl hpl
    rw [List.mem_map] at hpl
    obtain ⟨k, hk, hpl⟩ := hpl
    rw [List.mem_range] at hk
    subst hpl
    show k / layout.labels_per_page < _
    rw [Nat.div_lt_iff_lt_mul hlpp]
    exact Nat.lt_of_lt_of_le hk (le_ceil_mul _ _ hlpp)
  · exact ⟨_, generate_pdf_ok "a.pdf" 1 189 "ASN" 7 AVERY_L4731 0 0 0 0
      (by decide) (by decide) (by decide) (by decide) (by decide), by decide⟩
  · exact ⟨_, generate_pdf_ok "a.pdf" 1 190 "ASN" 7 AVERY_L4731 0 0 0 0
      (by decide) (by decide) (by decide) (by decide) (by decide), by decide⟩

/-- Witness for C2 at `count = 190` on the Avery 7×27 layout:
`⌈190 / 189⌉ = 2` pages. -/
theorem generate_pdf_page_count_witness :
    ∃ pls pages next,
      generate_pdf "b.pdf" 7 190 "ASN" 5 AVERY_L4731 0 0 0 0 =
        .ok (pls, pages, next) ∧
      (pages : ℤ) = ⌈(190 : ℚ) / ((AVERY_L4731.cols : ℚ) * (AVERY_L4731.rows : ℚ))⌉ ∧
      ∀ pl ∈ pls, pl.page < pages :=
  (generate_pdf_page_count "b.pdf" 7 190 "ASN" 5 AVERY_L4731 0 0 0 0
    (by decide) (by decide) (by decide) (by decide) (by decide)).1

/-- Claim C3. On valid inputs every emitted placement sits at row
`i / columns` and column `i % columns` for its within-page index `i`
(row-major fill), and for every page index `p` below the page count the
number of labels placed on page `p` is
`min (count - p * labels_per_page) labels_per_page` — a full page for
every page but possibly the last, the remainder on the last. -/
theorem generate_pdf_row_major (output_path : String)
    (start_number count : ℤ) ( pfx : String) (leading_zeros : ℤ)
    (layout : SheetLayout) (offset_x_mm offset_y_mm pitch_dx_mm pitch_dy_mm : ℚ)
    (hs : 0 < start_number) (hc : 0 < count) (hl : 0 ≤ leading_zeros)
    (hp : pfx ≠ "") (hlpp : 0 < layout.labels_per_page) :
    ∃ pls pages next,
      generate_pdf output_path start_number count pfx leading_zeros layout
          offset_x_mm offset_y_mm pitch_dx_mm pitch_dy_mm =
        .ok (pls, pages, next) ∧
      (∀ pl ∈ pls, pl.row = pl.idx / layout.cols ∧ pl.col = pl.idx % layout.cols) ∧
      (∀ p < pages,
        (pls.filter (fun pl => pl.page == p)).length
          = min (count.toNat - p * layout.labels_per_page) layout.labels_per_page) := by
  refine ⟨_, _, _,
    generate_pdf_ok output_path start_number count pfx leading_zeros layout
      offset_x_mm offset_y_mm pitch_dx_mm pitch_dy_mm hc hs hl hp hlpp, ?_, ?_⟩
  · intro pl hpl
    rw [List.mem_map] at hpl
    obtain ⟨k, _, hpl⟩ := hpl
    subst hpl
    exact ⟨rfl, rfl⟩
  · intro p hpage
    set C := count.toNat with hC
    set L := layout.labels_per_page with hLdef
    rw [List.filter_map, List.length_map]
    have hfn : ((fun pl => pl.page == p) ∘
        nthPlacement pfx leading_zeros.toNat layout
          offset_x_mm offset_y_mm pitch_dx_mm pitch_dy_mm start_number.toNat)
        = fun k => k / L == p := rfl
    rw [hfn, length_filter_range_div C L p hlpp]
    -- `p` is a page the run reaches, so `p * L < C`
    have h2 : (C + L - 1) / L * L ≤ C + L - 1 := Nat.div_mul_le_self _ _
    have hple : p + 1 ≤ (C + L - 1) / L := hpage
    have hmul : (p + 1) * L ≤ (C + L - 1) / L * L :=
      Nat.mul_le_mul_right _ hple
    have hsucc : (p + 1) * L = p * L + L := Nat.succ_mul _ _
    have hCpos : 0 < C := by omega
    omega

/-- Witness for C3 on a concrete run (`count = 200` spans two pages of the
7×27 layout: 189 labels on page 0, 11 on page 1). -/
theorem generate_pdf_row_major_witness :
    ∃ pls pages next,
      generate_pdf "c.pdf" 1 200 "ASN" 4 AVERY_L4731 0 0 0 0 =
        .ok (pls, pages, next) ∧
      (∀ pl ∈ pls, pl.row = pl.idx / AVERY_L4731.cols ∧
        pl.col = pl.idx % AVERY_L4731.cols) ∧
      (∀ p < pages,
        (pls.filter (fun pl => pl.page == p)).length
          = min ((200 : ℤ).toNat - p * AVERY_L4731.labels_per_page)
              AVERY_L4731.labels_per_page) :=
  generate_pdf_row_major "c.pdf" 1 200 "ASN" 4 AVERY_L4731 0 0 0 0
    (by decide) (by decide) (by decide) (by decide) (by decide)

/-- Claim C4. Every placement's bottom-left origin satisfies
`x = margin_left + col * (pitch_x + pitch_dx*mm) + offset_x*mm` and
`y = A4-page-height - margin_top - label_h - row * (pitch_y + pitch_dy*mm)
+ offset_y*mm`: rows counted from the top are mapped into reportlab's
bottom-up coordinate system by subtracting from the A4 page height. -/
theorem generate_pdf_placement_origin (output_path : String)
    (start_number count : ℤ) ( pfx : String) (leading_zeros : ℤ)
    (layout : SheetLayout) (offset_x_mm offset_y_mm pitch_dx_mm pitch_dy_mm : ℚ)
    (hs : 0 < start_number) (hc : 0 < count) (hl : 0 ≤ leading_zeros)
    (hp : pfx ≠ "") (hlpp : 0 < layout.labels_per_page) :
    ∃ pls pages next,
      generate_pdf output_path start_number count pfx leading_zeros layout
          offset_x_mm offset_y_mm pitch_dx_mm pitch_dy_mm =
        .ok (pls, pages, next) ∧
      ∀ pl ∈ pls,
        pl.x = layout.margin_left
            + (pl.col : ℚ) * (layout.pitch_x + pitch_dx_mm * mm)
            + offset_x_mm * mm ∧
        pl.y = A4.2 - layout.margin_top - layout.label_h
            - (pl.row : ℚ) * (layout.pitch_y + pitch_dy_mm * mm)
            + offset_y_mm * mm := by
  refine ⟨_, _, _,
    generate_pdf_ok output_path start_number count pfx leading_zeros layout
      offset_x_mm offset_y_mm pitch_dx_mm pitch_dy_mm hc hs hl hp hlpp, ?_⟩
  intro pl hpl
  rw [List.mem_map] at hpl
  obtain ⟨k, _, hpl⟩ := hpl
  subst hpl
  exact ⟨rfl, rfl⟩

/-- Witness for C4 on a concrete run with non-zero calibration deltas. -/
theorem generate_pdf_placement_origin_witness :
    ∃ pls pages next,
      generate_pdf "d.pdf" 3 10 "ASN" 6 AVERY_L4731 1 (-2) 0.5 0.25 =
        .ok (pls, pages, next) ∧
      ∀ pl ∈ pls,
        pl.x = AVERY_L4731.margin_left
            + (pl.col : ℚ) * (AVERY_L4731.pitch_x + 0.5 * mm) + 1 * mm ∧
        pl.y = A4.2 - AVERY_L4731.margin_top - AVERY_L4731.label_h
            - (pl.row : ℚ) * (AVERY_L4731.pitch_y + 0.25 * mm) + (-2) * mm :=
  generate_pdf_placement_origin "d.pdf" 3 10 "ASN" 6 AVERY_L4731 1 (-2) 0.5 0.25
    (by decide) (by decide) (by decide) (by decide) (by decide)

/-- Claim C5. Calibration is purely additive: with arbitrary deltas every
placement coordinate equals the coordinate computed from the base layout
alone plus the delta contribution (`col * pitch_dx * mm + offset_x * mm`
horizontally, `- row * pitch_dy * mm + offset_y * mm` vertically), and
with all four deltas equal to `0` every placement coordinate equals the
base-layout coordinate exactly. -/
theorem generate_pdf_calibration_additive (output_path : String)
    (start_number count : ℤ) ( pfx : String) (leading_zeros : ℤ)
    (layout : SheetLayout) (offset_x_mm offset_y_mm pitch_dx_mm pitch_dy_mm : ℚ)
    (hs : 0 < start_number) (hc : 0 < count) (hl : 0 ≤ leading_zeros)
    (hp : pfx ≠ "") (hlpp : 0 < layout.labels_per_page) :
    (∃ pls pages next,
      generate_pdf output_path start_number count pfx leading_zeros layout
          offset_x_mm offset_y_mm pitch_dx_mm pitch_dy_mm =
        .ok (pls, pages, next) ∧
      ∀ pl ∈ pls,
        pl.x = (layout.margin_left + (pl.col : ℚ) * layout.pitch_x)
            + ((pl.col : ℚ) * (pitch_dx_mm * mm) + offset_x_mm * mm) ∧
        pl.y = (A4.2 - layout.margin_top - layout.label_h
              - (pl.row : ℚ) * layout.pitch_y)
            + (-(pl.row : ℚ) * (pitch_dy_mm * mm) + offset_y_mm * mm)) ∧
    (∃ pls pages next,
      generate_pdf output_path start_number count pfx leading_zeros layout
          0 0 0 0 =
        .ok (pls, pages, next) ∧
      ∀ pl ∈ pls,
        pl.x = layout.margin_left + (pl.col : ℚ) * layout.pitch_x ∧
        pl.y = A4.2 - layout.margin_top - layout.label_h
            - (pl.row : ℚ) * layout.pitch_y) := by
  constructor
  · refine ⟨_, _, _,
      generate_pdf_ok output_path start_number count pfx leading_zeros layout
        offset_x_mm offset_y_mm pitch_dx_mm pitch_dy_mm hc hs hl hp hlpp, ?_⟩
    intro pl hpl
    rw [List.mem_map] at hpl
    obtain ⟨k, _, hpl⟩ := hpl
    subst hpl
    simp only [nthPlacement, placeLabel]
    exact ⟨by ring, by ring⟩
  · refine ⟨_, _, _,
      generate_pdf_ok output_path start_number count pfx leading_zeros layout
        0 0 0 0 hc hs hl hp hlpp, ?_⟩
    intro pl hpl
    rw [List.mem_map] at hpl
    obtain ⟨k, _, hpl⟩ := hpl
    subst hpl
    simp only [nthPlacement, placeLabel]
    exact ⟨by ring, by ring⟩

/-- Witness for C5 at concrete deltas `(2, -1, 0.3, -0.2)`. -/
theorem generate_pdf_calibration_additive_witness :
    (∃ pls pages next,
      generate_pdf "e.pdf" 1 5 "ASN" 3 AVERY_L4731 2 (-1) 0.3 (-0.2) =
        .ok (pls, pages, next) ∧
      ∀ pl ∈ pls,
        pl.x = (AVERY_L4731.margin_left + (pl.col : ℚ) * AVERY_L4731.pitch_x)
            + ((pl.col : ℚ) * (0.3 * mm) + 2 * mm) ∧
        pl.y = (A4.2 - AVERY_L4731.margin_top - AVERY_L4731.label_h
              - (pl.row : ℚ) * AVERY_L4731.pitch_y)
            + (-(pl.row : ℚ) * ((-0.2) * mm) + (-1) * mm)) ∧
    (∃ pls pages next,
      generate_pdf "e.pdf" 1 5 "ASN" 3 AVERY_L4731 0 0 0 0 =
        .ok (pls, pages, next) ∧
      ∀ pl ∈ pls,
        pl.x = AVERY_L4731.margin_left + (pl.col : ℚ) * AVERY_L4731.pitch_x ∧
        pl.y = A4.2 - AVERY_L4731.margin_top - AVERY_L4731.label_h
            - (pl.row : ℚ) * AVERY_L4731.pitch_y) :=
  generate_pdf_calibration_additive "e.pdf" 1 5 "ASN" 3 AVERY_L4731 2 (-1) 0.3 (-0.2)
    (by decide) (by decide) (by decide) (by decide) (by decide)

/-- Claim C6. `generate_pdf` raises a `ValueError` when `count ≤ 0`, when
`start_number ≤ 0`, when `leading_zeros < 0` or when the prefix is empty
— in the model the `Except.error` results, which carry no placements and
precede the canvas construction, so no document output is produced — and
on every valid input (with a layout holding at least one label per page)
no such error is raised. -/
theorem generate_pdf_validation (output_path : String)
    (start_number count : ℤ) ( pfx : String) (leading_zeros : ℤ)
    (layout : SheetLayout)
    (offset_x_mm offset_y_mm pitch_dx_mm pitch_dy_mm : ℚ) :
    (count ≤ 0 →
      generate_pdf output_path start_number count pfx leading_zeros layout
          offset_x_mm offset_y_mm pitch_dx_mm pitch_dy_mm =
        .error "count must be > 0") ∧
    (0 < count → start_number ≤ 0 →
      generate_pdf output_path start_number count pfx leading_zeros layout
          offset_x_mm offset_y_mm pitch_dx_mm pitch_dy_mm =
        .error "start_number must be > 0") ∧
    (0 < count → 0 < start_number → leading_zeros < 0 →
      generate_pdf output_path start_number count pfx leading_zeros layout
          offset_x_mm offset_y_mm pitch_dx_mm pitch_dy_mm =
        .error "leading_zeros must be >= 0") ∧
    (0 < count → 0 < start_number → 0 ≤ leading_zeros → pfx = "" →
      generate_pdf output_path start_number count pfx leading_zeros layout
          offset_x_mm offset_y_mm pitch_dx_mm pitch_dy_mm =
        .error "prefix must not be empty") ∧
    (0 < count → 0 < start_number → 0 ≤ leading_zeros → pfx ≠ "" →
      0 < layout.labels_per_page →
      ∃ res,
        generate_pdf output_path start_number count pfx leading_zeros layout
            offset_x_mm offset_y_mm pitch_dx_mm pitch_dy_mm = .ok res) := by
  refine ⟨?_, ?_, ?_, ?_, ?_⟩
  · intro h
    rw [generate_pdf, if_pos h]
  · intro h1 h2
    rw [generate_pdf, if_neg (by omega), if_pos h2]
  · intro h1 h2 h3
    rw [generate_pdf, if_neg (by omega), if_neg (by omega), if_pos h3]
  · intro h1 h2 h3 h4
    rw [generate_pdf, if_neg (by omega), if_neg (by omega), if_neg (by omega),
      if_pos h4]
  · intro h1 h2 h3 h4 h5
    exact ⟨_, generate_pdf_ok output_path start_number count pfx leading_zeros
      layout offset_x_mm offset_y_mm pitch_dx_mm pitch_dy_mm h1 h2 h3 h4 h5⟩

/-- Witness for C6: with `count = 0` the call fails with the `count`
validation error, and the all-valid instance succeeds. -/
theorem generate_pdf_validation_witness :
    generate_pdf "f.pdf" 1 0 "ASN" 7 AVERY_L4731 0 0 0 0 =
      .error "count must be > 0" ∧
    (∃ res, generate_pdf "f.pdf" 1 1 "ASN" 7 AVERY_L4731 0 0 0 0 = .ok res) :=
  ⟨(generate_pdf_validation "f.pdf" 1 0 "ASN" 7 AVERY_L4731 0 0 0 0).1
      (by decide),
   (generate_pdf_validation "f.pdf" 1 1 "ASN" 7 AVERY_L4731 0 0 0 0).2.2.2.2
      (by decide) (by decide) (by decide) (by decide) (by decide)⟩

/-- Claim C8. Label-text formatting never truncates: the numeric part of
`make_asn_text` has exactly `max leading_zeros digits` characters
(`digits` the length of the decimal representation), is the decimal
representation left-padded with zeros, and whenever the representation is
at least as long as the padding width the text is the prefix followed by
the full, unpadded decimal representation. -/
theorem make_asn_text_no_truncation ( pfx : String) (number w : ℕ) :
    (make_asn_text pfx number w).length
      = pfx.length + max w (Nat.repr number).length ∧
    make_asn_text pfx number w
      = pfx ++ (String.mk (List.replicate (w - (Nat.repr number).length) '0')
          ++ Nat.repr number) ∧
    (w ≤ (Nat.repr number).length →
      make_asn_text pfx number w = pfx ++ Nat.repr number) := by
  refine ⟨?_, rfl, ?_⟩
  · rw [make_asn_text, padNum, String.length_append, String.length_append]
    simp only [String.length_mk, List.length_replicate]
    omega
  · intro h
    rw [make_asn_text, padNum]
    simp only [Nat.sub_eq_zero_of_le h, List.replicate_zero]
    rfl

/-- Witness for C8 at the claim's example: number `123456`, padding width
`5` formats as the full 6-digit representation `"123456"`. -/
theorem make_asn_text_no_truncation_witness :
    5 ≤ (Nat.repr 123456).length ∧
    make_asn_text "ASN" 123456 5 = "ASN" ++ Nat.repr 123456 ∧
    "ASN" ++ Nat.repr 123456 = "ASN123456" :=
  ⟨by decide, (make_asn_text_no_truncation "ASN" 123456 5).2.2 (by decide),
   by decide⟩

/-! ### Settings persistence and GUI calibration -/

/-- A JSON value stored for one calibration field, as far as
`_coerce_float` can observe it: either a value whose string form parses as
a float (carried as the exact rational it parses to), or a string on which
float parsing fails.  The tk string variables holding calibration input
are modelled by the same type. -/
inductive JVal where
  | num : ℚ → JVal
  | raw : String → JVal
deriving DecidableEq

/-- Model of `App._coerce_float` (app.py lines 530–534): `float(str(value))` with
`None` on failure. -/
def coerce_float : JVal → Option ℚ
  | .num q => some q
  | .raw _ => none

/-- The `BASE_CALIBRATION_MM` constant (app.py lines 221–226): the fixed per-axis
baseline calibration constants in millimetres. -/
def BASE_CALIBRATION_MM : String → ℚ
  | "off_x" => -4.5
  | "off_y" => 7.0
  | "pitch_dx" => 1.2
  | "pitch_dy" => 0.42
  | _ => 0

/-- The tk variable state of `App`: the twelve `var_*` fields
(app.py lines 233–244).  Entry-style fields hold strings, the border
checkbox a boolean, the four calibration entries a `JVal`. -/
structure SettingsState where
  start : String
  mode : String
  count : String
  pages : String
  label_prefix : String
  zeros : String
  kind : String
  border : Bool
  off_x : JVal
  off_y : JVal
  pitch_dx : JVal
  pitch_dy : JVal
deriving DecidableEq

/-- A parsed `config.json` dictionary as `_apply_settings_from_dict`
consumes it: every key optional; calibration values as `JVal`. -/
structure SettingsDict where
  start : Option String
  mode : Option String
  count : Option String
  pages : Option String
  label_prefix : Option String
  zeros : Option String
  kind : Option String
  border : Option Bool
  off_x : Option JVal
  off_y : Option JVal
  pitch_dx : Option JVal
  pitch_dy : Option JVal
  calibration_mode : Option String
deriving DecidableEq

/-- Model of `App._settings_to_dict` (app.py lines 285–300): every field saved,
tagged with `calibration_mode = "delta"`. -/
def settings_to_dict (s : SettingsState) : SettingsDict :=
  { start := some s.start
    mode := some s.mode
    count := some s.count
    pages := some s.pages
    label_prefix := some s.label_prefix
    zeros := some s.zeros
    kind := some s.kind
    border := some s.border
    off_x := some s.off_x
    off_y := some s.off_y
    pitch_dx := some s.pitch_dx
    pitch_dy := some s.pitch_dy
    calibration_mode := some "delta" }

/-- Python's `str.lower()` on the character sequence. -/
def pyLower (s : String) : String :=
  String.mk (s.data.map Char.toLower)

/-- Python's `str.strip()`: leading and trailing whitespace removed. -/
def pyStrip (s : String) : String :=
  String.mk
    (((s.data.dropWhile Char.isWhitespace).reverse.dropWhile
        Char.isWhitespace).reverse)

/-- Model of `str(d.get("calibration_mode", "")).strip().lower()`
(app.py line 306). -/
def calibrationModeOf (d : SettingsDict) : String :=
  pyLower (pyStrip (d.calibration_mode.getD ""))

/-- The all-zero transitional heuristic (app.py lines 309–312): at least
one calibration key present and every present one parsing to a float of
magnitude below `1e-9`. -/
def all_zero_calibration (d : SettingsDict) : Bool :=
  let parsed := ([d.off_x, d.off_y, d.pitch_dx, d.pitch_dy].filterMap id).map
    coerce_float
  !parsed.isEmpty && parsed.all fun v =>
    match v with
    | some q => decide (|q| < 1 / 1000000000)
    | none => false

/-- The `legacy_absolute` flag of `_apply_settings_from_dict`
(app.py lines 307–312): a record not tagged `"delta"` is treated as
legacy-absolute, except that an untagged record whose present calibration
values all parse to (approximately) zero is reinterpreted as delta. -/
def legacy_absolute (d : SettingsDict) : Bool :=
  let base := calibrationModeOf d != "delta"
  if calibrationModeOf d == "" then
    if all_zero_calibration d then false else base
  else base

/-- Model of `set_calibration_var` (app.py lines 314–322) for one axis `key`:
absent key leaves the variable; under the legacy-absolute flag a parseable
value `V` becomes `V - BASE_CALIBRATION_MM[key]`; otherwise the stored
value is applied unchanged. -/
def set_calibration_var (legacy : Bool) (key : String) (cur : JVal)
    (entry : Option JVal) : JVal :=
  match entry with
  | none => cur
  | some jv =>
    if legacy then
      match coerce_float jv with
      | some q => .num (q - BASE_CALIBRATION_MM key)
      | none => jv
    else jv

/-- Model of `App._apply_settings_from_dict` (app.py lines 302–337): each present
key overwrites the matching variable, the calibration keys through
`set_calibration_var` under the `legacy_absolute` flag. -/
def apply_settings_from_dict (s : SettingsState) (d : SettingsDict) :
    SettingsState :=
  let legacy := legacy_absolute d
  { start := d.start.getD s.start
    mode := d.mode.getD s.mode
    count := d.count.getD s.count
    pages := d.pages.getD s.pages
    label_prefix := d.label_prefix.getD s.label_prefix
    zeros := d.zeros.getD s.zeros
    kind := d.kind.getD s.kind
    border := d.border.getD s.border
    off_x := set_calibration_var legacy "off_x" s.off_x d.off_x
    off_y := set_calibration_var legacy "off_y" s.off_y d.off_y
    pitch_dx := set_calibration_var legacy "pitch_dx" s.pitch_dx d.pitch_dx
    pitch_dy := set_calibration_var legacy "pitch_dy" s.pitch_dy d.pitch_dy }

/-- The `DEFAULT_SETTINGS` record (app.py lines 204–218) as a variable state; the
calibration entries `"0.0"` parse as the float `0`. -/
def DEFAULT_SETTINGS : SettingsState :=
  { start := "1"
    mode := "labels"
    count := toString AVERY_L4731.labels_per_page
    pages := "1"
    label_prefix := "ASN"
    zeros := "7"
    kind := "QR"
    border := false
    off_x := .num 0
    off_y := .num 0
    pitch_dx := .num 0
    pitch_dy := .num 0 }

/-- Model of `App._calibration` (app.py lines 570–577): the user-entered deltas
with the fixed base calibration constants added per axis, in the order
`(off_x, off_y, pitch_dx, pitch_dy)`. -/
def App.calibration (off_x_delta off_y_delta pdx_delta pdy_delta : ℚ) :
    ℚ × ℚ × ℚ × ℚ :=
  (BASE_CALIBRATION_MM "off_x" + off_x_delta,
   BASE_CALIBRATION_MM "off_y" + off_y_delta,
   BASE_CALIBRATION_MM "pitch_dx" + pdx_delta,
   BASE_CALIBRATION_MM "pitch_dy" + pdy_delta)

/-- The PDF-generation core of `App.on_generate_pdf`
(app.py lines 638–663): the calibration passed to `generate_pdf` is
`App.calibration` of the user deltas, the layout the Avery constant. -/
def on_generate_pdf_core (output_path : String) (start count : ℤ)
    ( pfx : String) (zeros : ℤ)
    (off_x_delta off_y_delta pdx_delta pdy_delta : ℚ) :
    Except String (List Placement × ℕ × ℕ) :=
  let cal := App.calibration off_x_delta off_y_delta pdx_delta pdy_delta
  generate_pdf output_path start count pfx zeros AVERY_L4731
    cal.1 cal.2.1 cal.2.2.1 cal.2.2.2

/-- An untagged legacy record whose calibration values are all exactly
zero: the input on which the transitional heuristic of
`_apply_settings_from_dict` overrides the legacy-absolute conversion. -/
def legacy_zero_dict : SettingsDict :=
  { start := none, mode := none, count := none, pages := none
    label_prefix := none, zeros := none, kind := none, border := none
    off_x := some (.num 0), off_y := some (.num 0)
    pitch_dx := some (.num 0), pitch_dy := some (.num 0)
    calibration_mode := none }

/-- An untagged legacy record with a non-zero absolute `off_x` value. -/
def legacy_one_dict : SettingsDict :=
  { start := none, mode := none, count := none, pages := none
    label_prefix := none, zeros := none, kind := none, border := none
    off_x := some (.num 1), off_y := none
    pitch_dx := none, pitch_dy := none
    calibration_mode := none }

/-- Claim C7, counterexample. `legacy_zero_dict` is recorded under the
legacy scheme (it carries no `"delta"` tag) and stores the absolute value
`V = 0` for `off_x`, yet loading applies it unchanged — the loaded value
is `0`, not `V - BASE_CALIBRATION_MM "off_x" = 4.5` as the claim states:
the all-zero transitional heuristic reinterprets the record as delta. -/
theorem apply_settings_legacy_counterexample :
    calibrationModeOf legacy_zero_dict ≠ "delta" ∧
    legacy_zero_dict.off_x = some (.num 0) ∧
    (apply_settings_from_dict DEFAULT_SETTINGS legacy_zero_dict).off_x
      = .num 0 ∧
    (apply_settings_from_dict DEFAULT_SETTINGS legacy_zero_dict).off_x
      ≠ .num ((0 : ℚ) - BASE_CALIBRATION_MM "off_x") := by
  have hzero : all_zero_calibration legacy_zero_dict = true := by
    rw [all_zero_calibration]
    simp [legacy_zero_dict, coerce_float]
  have hmode : calibrationModeOf legacy_zero_dict = "" := by decide
  have hleg : legacy_absolute legacy_zero_dict = false := by
    simp [legacy_absolute, hmode, hzero]
  have hoffx : legacy_zero_dict.off_x = some (.num 0) := rfl
  have h0 : (apply_settings_from_dict DEFAULT_SETTINGS legacy_zero_dict).off_x
      = .num 0 := by
    simp [apply_settings_from_dict, hleg, set_calibration_var, hoffx]
  have hbase : BASE_CALIBRATION_MM "off_x" = -4.5 := rfl
  refine ⟨by decide, rfl, h0, ?_⟩
  rw [h0, hbase]
  intro h
  rw [JVal.num.injEq] at h
  norm_num at h

/-- Claim C7, amended. On loading settings, for every calibration axis, a
numeric value `V` recorded under the legacy absolute scheme (no `"delta"`
tag) is converted to the delta `V - BASE_CALIBRATION_MM[axis]` — *unless*
the record carries no calibration-mode tag at all and every present
calibration value parses to a float of magnitude below `1e-9`, in which
case the stored values are applied unchanged — while a record already
tagged `"delta"` has its stored calibration values applied unchanged. -/
theorem apply_settings_legacy_migration (s : SettingsState)
    (d : SettingsDict) :
    (calibrationModeOf d ≠ "delta" →
      ¬(calibrationModeOf d = "" ∧ all_zero_calibration d = true) →
      (∀ V : ℚ, d.off_x = some (.num V) →
        (apply_settings_from_dict s d).off_x
          = .num (V - BASE_CALIBRATION_MM "off_x")) ∧
      (∀ V : ℚ, d.off_y = some (.num V) →
        (apply_settings_from_dict s d).off_y
          = .num (V - BASE_CALIBRATION_MM "off_y")) ∧
      (∀ V : ℚ, d.pitch_dx = some (.num V) →
        (apply_settings_from_dict s d).pitch_dx
          = .num (V - BASE_CALIBRATION_MM "pitch_dx")) ∧
      (∀ V : ℚ, d.pitch_dy = some (.num V) →
        (apply_settings_from_dict s d).pitch_dy
          = .num (V - BASE_CALIBRATION_MM "pitch_dy"))) ∧
    (calibrationModeOf d = "delta" →
      (∀ jv, d.off_x = some jv →
        (apply_settings_from_dict s d).off_x = jv) ∧
      (∀ jv, d.off_y = some jv →
        (apply_settings_from_dict s d).off_y = jv) ∧
      (∀ jv, d.pitch_dx = some jv →
        (apply_settings_from_dict s d).pitch_dx = jv) ∧
      (∀ jv, d.pitch_dy = some jv →
        (apply_settings_from_dict s d).pitch_dy = jv)) := by
  constructor
  · intro hm hz
    have hleg : legacy_absolute d = true := by
      rw [legacy_absolute]
      by_cases he : calibrationModeOf d = ""
      · have hz' : all_zero_calibration d = false := by
          rcases Bool.eq_false_or_eq_true (all_zero_calibration d) with h | h
          · exact absurd ⟨he, h⟩ hz
          · exact h
        simp [he, hz', hm]
      · simp [he, hm]
    refine ⟨?_, ?_, ?_, ?_⟩ <;>
      · intro V hV
        simp [apply_settings_from_dict, hleg, hV, set_calibration_var,
          coerce_float]
  · intro hm
    have hleg : legacy_absolute d = false := by
      simp [legacy_absolute, calibrationModeOf] at hm ⊢
      simp [hm]
    refine ⟨?_, ?_, ?_, ?_⟩ <;>
      · intro jv hjv
        simp [apply_settings_from_dict, hleg, hjv, set_calibration_var]

/-- Witness for the amended C7: loading the untagged record with absolute
`off_x = 1` yields the delta `1 - (-4.5) = 5.5`. -/
theorem apply_settings_legacy_migration_witness :
    (apply_settings_from_dict DEFAULT_SETTINGS legacy_one_dict).off_x
      = .num ((1 : ℚ) - BASE_CALIBRATION_MM "off_x") :=
  ((apply_settings_legacy_migration DEFAULT_SETTINGS legacy_one_dict).1
    (by decide)
    (by
      rintro ⟨-, h⟩
      rw [all_zero_calibration] at h
      simp [legacy_one_dict, coerce_float] at h
      norm_num at h)).1 1 rfl

/-- Claim C9. The calibration the GUI passes to `generate_pdf` is not the
user-entered deltas but the deltas plus the fixed base constants
(`off_x` −4.5 mm, `off_y` +7.0 mm, `pitch_dx` +1.2 mm, `pitch_dy`
+0.42 mm); with all user deltas `0` the effective calibration equals
those base constants, which differ from the nominal (all-zero)
calibration of the sheet layout. -/
theorem on_generate_pdf_uses_base_calibration (output_path : String)
    (start count : ℤ) ( pfx : String) (zeros : ℤ)
    (off_x_delta off_y_delta pdx_delta pdy_delta : ℚ) :
    on_generate_pdf_core output_path start count pfx zeros
        off_x_delta off_y_delta pdx_delta pdy_delta
      = generate_pdf output_path start count pfx zeros AVERY_L4731
          (-4.5 + off_x_delta) (7.0 + off_y_delta)
          (1.2 + pdx_delta) (0.42 + pdy_delta) ∧
    App.calibration 0 0 0 0 = (-4.5, 7.0, 1.2, 0.42) ∧
    App.calibration 0 0 0 0 ≠ (0, 0, 0, 0) := by
  have b1 : BASE_CALIBRATION_MM "off_x" = -4.5 := rfl
  have b2 : BASE_CALIBRATION_MM "off_y" = 7.0 := rfl
  have b3 : BASE_CALIBRATION_MM "pitch_dx" = 1.2 := rfl
  have b4 : BASE_CALIBRATION_MM "pitch_dy" = 0.42 := rfl
  refine ⟨rfl, ?_, ?_⟩
  · rw [App.calibration, b1, b2, b3, b4]
    norm_num
  · rw [App.calibration, b1, b2, b3, b4]
    norm_num [Prod.ext_iff]

/-- Claim C10. Settings round-trip: applying `_apply_settings_from_dict` to
the dictionary `_settings_to_dict` produces restores every field of the
saved state, whatever state the variables held before the load — the
saved dictionary is tagged `calibration_mode = "delta"`, so no legacy
conversion touches the calibration values. -/
theorem settings_round_trip (s t : SettingsState) :
    apply_settings_from_dict t (settings_to_dict s) = s := by
  cases s
  rfl

end ASN
